import Mathlib

/-!
Shallow embedding of the dashboard client `MCPWebSocketService`
(src/dashboard/src/services/MCPWebSocketService.ts).

The class holds `ws` (a browser WebSocket or null), a numeric `requestId`
counter, a `pendingRequests` map from id to the promise handles of an
in-flight request, a `subscriptions` map from event name to callback, a
`reconnectTimeout` handle and a `reconnectAttempts` counter.  We model the
mutable state as `ClientState`, promise settlements / sent frames / timer
registrations / console errors as an `Output` list, and the event-loop
callbacks (`onopen`, `onclose`, `onmessage`, the two `setTimeout` bodies)
together with the public methods as a step function on events.

Promise handles are identified by the request id they were registered
under (each `sendRequest` call creates exactly one promise); subscription
callbacks are identified by an opaque numeral; `params` / `result` payloads
are opaque numerals.
-/

namespace MCPWS

/-- Ready states of a browser WebSocket (`WebSocket.CONNECTING`, `OPEN`,
`CLOSING`, `CLOSED`). -/
inductive WsReadyState
  | CONNECTING
  | OPEN
  | CLOSING
  | CLOSED
deriving DecidableEq, Repr

/-- Parsed JSON-RPC frame as inspected by `handleMessage`: optional `id`,
whether the `error` field is present (truthy), the `result` payload, the
optional `method` string, and the `params` payload.  Payloads are opaque
numerals. -/
structure Message where
  id : Option Nat
  isError : Bool
  result : Nat
  method : Option String
  params : Nat
deriving DecidableEq, Repr

/-- Observable effects of one callback run: promise settlements, callback
invocations, frames written to the socket, timers registered with
`setTimeout`, and console error logs. -/
inductive Output
  | resolved (id result : Nat)
  | rejectedError (id : Nat)
  | rejectedTimeout (id : Nat)
  | rejectedNotConnected
  | callbackInvoked (cb params : Nat)
  | frameSent (id : Nat) (method : String)
  | scheduleTimeout (id ms : Nat)
  | scheduleReconnect (delayMs : Nat)
  | logMaxAttempts
  | connectResolved
deriving DecidableEq, Repr

/-- The mutable fields of `MCPWebSocketService`.  `ws = none` models
`this.ws === null`; `pendingRequests` keeps only the keys (the promise
handles are identified by the key); `subscriptions` is an association list
with JS-`Map` semantics; `reconnectTimeout` records the pending reconnect
timer (its delay) if one is scheduled. -/
structure ClientState where
  ws : Option WsReadyState
  requestId : Nat
  pendingRequests : List Nat
  subscriptions : List (String × Nat)
  reconnectTimeout : Option Nat
  reconnectAttempts : Nat
deriving DecidableEq, Repr

/-- Class field `maxReconnectAttempts = 5`. -/
def maxReconnectAttempts : Nat := 5

/-- The request timeout: `setTimeout(..., 10000)` — ten seconds. -/
def requestTimeoutMs : Nat := 10000

/-- JS `Map.set`: after the call the key is bound exactly once, to the new
value. -/
def msSet (m : List (String × Nat)) (k : String) (v : Nat) :
    List (String × Nat) :=
  (k, v) :: m.filter (fun p => p.1 ≠ k)

/-- JS `Map.get` (`none` for an absent key). -/
def msGet : List (String × Nat) → String → Option Nat
  | [], _ => none
  | p :: rest, k => if p.1 = k then some p.2 else msGet rest k

/-- JS `Map.delete`. -/
def msDel (m : List (String × Nat)) (k : String) : List (String × Nat) :=
  m.filter (fun p => p.1 ≠ k)

/-- Fresh state of a newly constructed service. -/
def initState : ClientState :=
  { ws := none, requestId := 0, pendingRequests := [], subscriptions := [],
    reconnectTimeout := none, reconnectAttempts := 0 }

/-- JS `Map.delete` on the pending-request map
(`this.pendingRequests.delete(i)`). -/
def pendDelete (s : ClientState) (i : Nat) : ClientState :=
  { s with pendingRequests := s.pendingRequests.filter (fun j => j ≠ i) }

/-- Method `sendRequest(method, params)`.  If `this.ws` is null or not OPEN the
returned promise is rejected with "WebSocket not connected" and nothing
else happens.  Otherwise `id = ++this.requestId`, the promise handles are
stored under `id` (Map.set), the frame is written to the socket, and a
10-second timeout for `id` is registered. -/
def sendRequest (s : ClientState) (method : String) :
    ClientState × List Output :=
  if s.ws = some WsReadyState.OPEN then
    let id := s.requestId + 1
    ({ s with requestId := id,
              pendingRequests := id :: s.pendingRequests.filter (fun j => j ≠ id) },
     [Output.frameSent id method, Output.scheduleTimeout id requestTimeoutMs])
  else
    (s, [Output.rejectedNotConnected])

/-- Body of the `setTimeout` registered by `sendRequest`: if `id` is still
pending, delete it and reject with "Request timeout"; otherwise do
nothing. -/
def onRequestTimeout (s : ClientState) (id : Nat) :
    ClientState × List Output :=
  if id ∈ s.pendingRequests then
    (pendDelete s id, [Output.rejectedTimeout id])
  else (s, [])

/-- Response branch of `handleMessage`: on
`message.id && pendingRequests.has(message.id)` (JS truthiness: `id = 0`
and a missing id are falsy) delete the entry, then reject with the error
message if `message.error` is set, else resolve with `message.result`. -/
def respond (s : ClientState) (isErr : Bool) (res : Nat) :
    Option Nat → ClientState × List Output
  | some i =>
      if i ≠ 0 ∧ i ∈ s.pendingRequests then
        (pendDelete s i,
         [if isErr then Output.rejectedError i else Output.resolved i res])
      else (s, [])
  | none => (s, [])

/-- Notification branch of `handleMessage`: on
`message.method && subscriptions.has(message.method)` (a missing method
and the empty string are falsy) invoke the stored callback on
`message.params`. -/
def notify (s : ClientState) (params : Nat) : Option String → List Output
  | some meth =>
      if meth ≠ "" then
        match msGet s.subscriptions meth with
        | some cb => [Output.callbackInvoked cb params]
        | none => []
      else []
  | none => []

/-- Method `handleMessage(data)` on an already parsed frame: the response branch
runs first, then the notification branch (on the state left by the
response branch). -/
def handleMessage (s : ClientState) (m : Message) :
    ClientState × List Output :=
  ((respond s m.isError m.result m.id).1,
   (respond s m.isError m.result m.id).2 ++
     notify (respond s m.isError m.result m.id).1 m.params m.method)

/-- Method `handleReconnect()`: while `reconnectAttempts < maxReconnectAttempts`,
increment the counter, compute `delay = min(1000 * 2 ** reconnectAttempts,
30000)` (with the already incremented counter) and schedule one `connect()`
after `delay`; otherwise only log "Max reconnection attempts reached". -/
def handleReconnect (s : ClientState) : ClientState × List Output :=
  if s.reconnectAttempts < maxReconnectAttempts then
    let attempts := s.reconnectAttempts + 1
    let delay := min (1000 * 2 ^ attempts) 30000
    ({ s with reconnectAttempts := attempts, reconnectTimeout := some delay },
     [Output.scheduleReconnect delay])
  else
    (s, [Output.logMaxAttempts])

/-- Method `connect()` up to its synchronous end: `this.ws = new WebSocket(url)`
(ready state CONNECTING) and handler installation. -/
def connectStart (s : ClientState) : ClientState :=
  { s with ws := some WsReadyState.CONNECTING }

/-- The `onopen` handler: the socket becomes OPEN, `reconnectAttempts = 0`,
and the `connect()` promise resolves. -/
def onOpen (s : ClientState) : ClientState × List Output :=
  ({ s with ws := s.ws.map (fun _ => WsReadyState.OPEN),
            reconnectAttempts := 0 },
   [Output.connectResolved])

/-- The `onclose` handler: the socket becomes CLOSED, then
`handleReconnect()` runs. -/
def onClose (s : ClientState) : ClientState × List Output :=
  handleReconnect { s with ws := s.ws.map (fun _ => WsReadyState.CLOSED) }

/-- Method `subscribeToSystemStats(callback)`: store the callback under
`"system_stats"` (Map.set), then send a `subscribe_system_stats`
request. -/
def subscribeToSystemStats (s : ClientState) (cb : Nat) :
    ClientState × List Output :=
  sendRequest { s with subscriptions := msSet s.subscriptions "system_stats" cb }
    "subscribe_system_stats"

/-- Method `subscribeToAlerts(callback)`. -/
def subscribeToAlerts (s : ClientState) (cb : Nat) :
    ClientState × List Output :=
  sendRequest { s with subscriptions := msSet s.subscriptions "alerts" cb }
    "subscribe_alerts"

/-- Method `subscribeToLogs(callback)`. -/
def subscribeToLogs (s : ClientState) (cb : Nat) :
    ClientState × List Output :=
  sendRequest { s with subscriptions := msSet s.subscriptions "logs" cb }
    "subscribe_logs"

/-- Method `unsubscribeFromSystemStats()`: delete the `"system_stats"` entry, then
send an `unsubscribe_system_stats` request. -/
def unsubscribeFromSystemStats (s : ClientState) : ClientState × List Output :=
  sendRequest { s with subscriptions := msDel s.subscriptions "system_stats" }
    "unsubscribe_system_stats"

/-- Method `unsubscribeFromAlerts()`. -/
def unsubscribeFromAlerts (s : ClientState) : ClientState × List Output :=
  sendRequest { s with subscriptions := msDel s.subscriptions "alerts" }
    "unsubscribe_alerts"

/-- Method `unsubscribeFromLogs()`. -/
def unsubscribeFromLogs (s : ClientState) : ClientState × List Output :=
  sendRequest { s with subscriptions := msDel s.subscriptions "logs" }
    "unsubscribe_logs"

/-- Method `disconnect()`: clear a scheduled reconnect timer, clear both maps,
close and null out the socket. -/
def disconnect (s : ClientState) : ClientState :=
  { s with reconnectTimeout := none, subscriptions := [],
           pendingRequests := [], ws := none }

/-- Method `isConnected()`: `this.ws?.readyState === WebSocket.OPEN`. -/
def isConnected (s : ClientState) : Bool :=
  decide (s.ws = some WsReadyState.OPEN)

/-- Event-loop events the service reacts to: public method calls, socket
events, and the firing of timers it registered. -/
inductive Event
  | send (method : String)
  | recv (m : Message)
  | timeoutFire (id : Nat)
  | wsOpen
  | wsClose
  | reconnectFire
  | subscribeStats (cb : Nat)
  | subscribeAlerts (cb : Nat)
  | subscribeLogs (cb : Nat)
  | unsubStats
  | unsubAlerts
  | unsubLogs
  | disconnectCall
deriving DecidableEq, Repr

/-- One event-loop step of the service. -/
def step (s : ClientState) (e : Event) : ClientState × List Output :=
  match e with
  | Event.send method => sendRequest s method
  | Event.recv m => handleMessage s m
  | Event.timeoutFire id => onRequestTimeout s id
  | Event.wsOpen => onOpen s
  | Event.wsClose => onClose s
  | Event.reconnectFire => (connectStart s, [])
  | Event.subscribeStats cb => subscribeToSystemStats s cb
  | Event.subscribeAlerts cb => subscribeToAlerts s cb
  | Event.subscribeLogs cb => subscribeToLogs s cb
  | Event.unsubStats => unsubscribeFromSystemStats s
  | Event.unsubAlerts => unsubscribeFromAlerts s
  | Event.unsubLogs => unsubscribeFromLogs s
  | Event.disconnectCall => (disconnect s, [])

/-- Run a sequence of events, collecting all outputs in order. -/
def run (s : ClientState) : List Event → ClientState × List Output
  | [] => (s, [])
  | e :: es =>
      let p := step s e
      let q := run p.1 es
      (q.1, p.2 ++ q.2)

/-- A plain response frame: `{id, result}` (no method, no error). -/
def mkResponse (i res : Nat) : Message :=
  { id := some i, isError := false, result := res, method := none, params := 0 }

/-- An error response frame: `{id, error:{code,message}}`. -/
def mkErrorResponse (i : Nat) : Message :=
  { id := some i, isError := true, result := 0, method := none, params := 0 }

/-- A notification frame: `{method, params}`, no id. -/
def mkNotification (meth : String) (p : Nat) : Message :=
  { id := none, isError := false, result := 0, method := some meth, params := p }

/-- Does this output settle (resolve or reject) the promise registered
under request id `i`? -/
def settles (i : Nat) : Output → Bool
  | Output.resolved j _ => j == i
  | Output.rejectedError j => j == i
  | Output.rejectedTimeout j => j == i
  | _ => false

/-- Every pending request id was assigned by the counter: positive and at
most the current `requestId`.  Holds in every reachable state. -/
def PendingBound (s : ClientState) : Prop :=
  ∀ i ∈ s.pendingRequests, 1 ≤ i ∧ i ≤ s.requestId

instance (s : ClientState) : Decidable (PendingBound s) := by
  unfold PendingBound; infer_instance

/-- A connected quiescent state (fresh service right after a successful
`connect()`). -/
def connState : ClientState :=
  { ws := some WsReadyState.OPEN, requestId := 0, pendingRequests := [],
    subscriptions := [], reconnectTimeout := none, reconnectAttempts := 0 }

/-- Builds `n` consecutive connection failures: each failure is a close event
followed by the scheduled reconnect attempt starting (which then fails
with the next close). -/
def failN : Nat → List Event
  | 0 => []
  | n + 1 => Event.wsClose :: Event.reconnectFire :: failN n

/-- Request id `i` is finished for good: not pending, and the counter has
already moved past it (plus the bookkeeping invariant).  This is the state
of an id right after its entry is purged. -/
def DeadId (i : Nat) (s : ClientState) : Prop :=
  PendingBound s ∧ i ∉ s.pendingRequests ∧ i ≤ s.requestId

instance (i : Nat) (s : ClientState) : Decidable (DeadId i s) := by
  unfold DeadId; infer_instance

/-- Is this event a `subscribeToSystemStats` call? -/
def isSubscribeStats : Event → Bool
  | Event.subscribeStats _ => true
  | _ => false

/-- A connected client with one active stats subscription (callback token
7) and one in-flight request (id 3) left over from three sent requests. -/
def sC3 : ClientState :=
  { ws := some WsReadyState.OPEN, requestId := 3, pendingRequests := [3],
    subscriptions := [("system_stats", 7)], reconnectTimeout := none,
    reconnectAttempts := 0 }

/-- An unintended transport close followed by the scheduled reconnect
attempt starting and succeeding. -/
def esC3 : List Event := [Event.wsClose, Event.reconnectFire, Event.wsOpen]

/-- A client whose reconnect attempts are exhausted (counter at the
maximum of 5). -/
def termState : ClientState :=
  { ws := some WsReadyState.CLOSED, requestId := 0, pendingRequests := [],
    subscriptions := [], reconnectTimeout := some 30000,
    reconnectAttempts := 5 }

/-- A connected client with exactly one request (id 1) in flight. -/
def pendingState : ClientState :=
  { ws := some WsReadyState.OPEN, requestId := 1, pendingRequests := [1],
    subscriptions := [], reconnectTimeout := none, reconnectAttempts := 0 }

/-! Basic lemmas about the map operations and the request bookkeeping. -/

theorem mem_filter_ne {l : List Nat} {i k : Nat} :
    i ∈ l.filter (fun j => j ≠ k) ↔ i ∈ l ∧ i ≠ k := by
  simp [List.mem_filter]

theorem msGet_msSet_self (m : List (String × Nat)) (k : String) (v : Nat) :
    msGet (msSet m k v) k = some v := by
  simp [msSet, msGet]

theorem msGet_filter_ne (m : List (String × Nat)) (k k2 : String)
    (h : k ≠ k2) :
    msGet (m.filter (fun p => p.1 ≠ k2)) k = msGet m k := by
  have h2 : ¬ k2 = k := fun hk => h hk.symm
  induction m with
  | nil => rfl
  | cons hd tl ih =>
      by_cases h1 : hd.1 = k2 <;> by_cases h3 : hd.1 = k <;>
        simp_all [msGet, List.filter_cons]

theorem msGet_msSet_ne (m : List (String × Nat)) (k k2 : String) (v : Nat)
    (h : k ≠ k2) :
    msGet (msSet m k2 v) k = msGet m k := by
  have h2 : ¬ k2 = k := fun hk => h hk.symm
  rw [msSet]
  simp only [msGet, h2, if_false]
  exact msGet_filter_ne m k k2 h

theorem msGet_msDel_self (m : List (String × Nat)) (k : String) :
    msGet (msDel m k) k = none := by
  induction m with
  | nil => rfl
  | cons hd tl ih =>
      by_cases h1 : hd.1 = k <;> simp [msDel, msGet, h1] at ih ⊢ <;>
        simpa [msDel] using ih

theorem msGet_msDel_ne (m : List (String × Nat)) (k k2 : String)
    (h : k ≠ k2) :
    msGet (msDel m k2) k = msGet m k := by
  simpa [msDel] using msGet_filter_ne m k k2 h

/-! State-shape characterizations of each operation. -/

theorem pendDelete_requestId (s : ClientState) (i : Nat) :
    (pendDelete s i).requestId = s.requestId := rfl

theorem mem_pendDelete {s : ClientState} {i j : Nat} :
    j ∈ (pendDelete s i).pendingRequests ↔ j ∈ s.pendingRequests ∧ j ≠ i :=
  mem_filter_ne

theorem sendRequest_of_open {s : ClientState} {m : String}
    (h : s.ws = some WsReadyState.OPEN) :
    sendRequest s m =
      ({ s with requestId := s.requestId + 1,
                pendingRequests :=
                  (s.requestId + 1) ::
                    s.pendingRequests.filter (fun j => j ≠ s.requestId + 1) },
       [Output.frameSent (s.requestId + 1) m,
        Output.scheduleTimeout (s.requestId + 1) requestTimeoutMs]) := by
  simp [sendRequest, h]

theorem sendRequest_of_not_open {s : ClientState} {m : String}
    (h : ¬ s.ws = some WsReadyState.OPEN) :
    sendRequest s m = (s, [Output.rejectedNotConnected]) := by
  simp [sendRequest, h]

theorem sendRequest_subscriptions (s : ClientState) (m : String) :
    (sendRequest s m).1.subscriptions = s.subscriptions := by
  by_cases h : s.ws = some WsReadyState.OPEN <;> simp [sendRequest, h]

theorem sendRequest_ws (s : ClientState) (m : String) :
    (sendRequest s m).1.ws = s.ws := by
  by_cases h : s.ws = some WsReadyState.OPEN <;> simp [sendRequest, h]

theorem sendRequest_reconnectAttempts (s : ClientState) (m : String) :
    (sendRequest s m).1.reconnectAttempts = s.reconnectAttempts := by
  by_cases h : s.ws = some WsReadyState.OPEN <;> simp [sendRequest, h]

theorem requestId_le_sendRequest (s : ClientState) (m : String) :
    s.requestId ≤ (sendRequest s m).1.requestId := by
  by_cases h : s.ws = some WsReadyState.OPEN <;> simp [sendRequest, h]

theorem mem_sendRequest_pending {s : ClientState} {m : String} {i : Nat}
    (hi : i ∈ (sendRequest s m).1.pendingRequests) :
    i ∈ s.pendingRequests ∨ i = s.requestId + 1 := by
  by_cases h : s.ws = some WsReadyState.OPEN
  · rw [sendRequest_of_open h] at hi
    rcases List.mem_cons.mp hi with h1 | h1
    · right; exact h1
    · left; exact (mem_filter_ne.mp h1).1
  · rw [sendRequest_of_not_open h] at hi
    left; exact hi

theorem pendingBound_sendRequest {s : ClientState} (m : String)
    (h : PendingBound s) : PendingBound (sendRequest s m).1 := by
  by_cases hc : s.ws = some WsReadyState.OPEN
  · rw [sendRequest_of_open hc]
    intro i hi
    show 1 ≤ i ∧ i ≤ s.requestId + 1
    have hi2 : i = s.requestId + 1 ∨
        i ∈ s.pendingRequests.filter (fun j => j ≠ s.requestId + 1) :=
      List.mem_cons.mp hi
    rcases hi2 with h1 | h1
    · omega
    · have h2 := h i (mem_filter_ne.mp h1).1
      omega
  · rw [sendRequest_of_not_open hc]
    exact h

theorem respond_hit {s : ClientState} {i : Nat} (isErr : Bool) (res : Nat)
    (h0 : i ≠ 0) (hm : i ∈ s.pendingRequests) :
    respond s isErr res (some i) =
      (pendDelete s i,
       [if isErr then Output.rejectedError i else Output.resolved i res]) := by
  simp only [respond]
  rw [if_pos ⟨h0, hm⟩]

theorem respond_miss {s : ClientState} {i : Nat} (isErr : Bool) (res : Nat)
    (h : ¬ (i ≠ 0 ∧ i ∈ s.pendingRequests)) :
    respond s isErr res (some i) = (s, []) := by
  simp only [respond]
  rw [if_neg h]

theorem respond_fst (s : ClientState) (isErr : Bool) (res : Nat)
    (mo : Option Nat) :
    (respond s isErr res mo).1 = s ∨
      ∃ j, j ∈ s.pendingRequests ∧
        (respond s isErr res mo).1 = pendDelete s j := by
  cases mo with
  | none => left; rfl
  | some i =>
      by_cases hc : i ≠ 0 ∧ i ∈ s.pendingRequests
      · right
        refine ⟨i, hc.2, ?_⟩
        rw [respond_hit isErr res hc.1 hc.2]
      · left
        rw [respond_miss isErr res hc]

theorem notify_some {s : ClientState} {meth : String} (p : Nat)
    (hne : meth ≠ "") :
    notify s p (some meth) =
      (match msGet s.subscriptions meth with
       | some cb => [Output.callbackInvoked cb p]
       | none => []) := by
  simp only [notify]
  rw [if_pos hne]

theorem notify_hit {s : ClientState} {meth : String} {cb : Nat} (p : Nat)
    (hne : meth ≠ "") (hg : msGet s.subscriptions meth = some cb) :
    notify s p (some meth) = [Output.callbackInvoked cb p] := by
  rw [notify_some p hne, hg]

theorem notify_miss {s : ClientState} {meth : String} (p : Nat)
    (hg : msGet s.subscriptions meth = none) :
    notify s p (some meth) = [] := by
  by_cases hne : meth ≠ ""
  · rw [notify_some p hne, hg]
  · simp only [notify]
    rw [if_neg hne]

theorem mem_notify {s : ClientState} {p : Nat} {mo : Option String}
    {o : Output} (ho : o ∈ notify s p mo) :
    ∃ cb, o = Output.callbackInvoked cb p := by
  cases mo with
  | none => simp [notify] at ho
  | some meth =>
      by_cases hne : meth ≠ ""
      · rw [notify_some p hne] at ho
        cases hg : msGet s.subscriptions meth <;> rw [hg] at ho
        · simp at ho
        · exact ⟨_, by simpa using ho⟩
      · simp only [notify] at ho
        rw [if_neg hne] at ho
        simp at ho

theorem handleMessage_fst (s : ClientState) (m : Message) :
    (handleMessage s m).1 = s ∨
      ∃ j, j ∈ s.pendingRequests ∧ (handleMessage s m).1 = pendDelete s j :=
  respond_fst s m.isError m.result m.id

theorem onRequestTimeout_fst (s : ClientState) (id : Nat) :
    (onRequestTimeout s id).1 = s ∨
      (id ∈ s.pendingRequests ∧ (onRequestTimeout s id).1 = pendDelete s id) := by
  unfold onRequestTimeout
  by_cases hc : id ∈ s.pendingRequests
  · right; exact ⟨hc, by simp [hc]⟩
  · left; simp [hc]

theorem pendingBound_pendDelete {s : ClientState} {j : Nat}
    (h : PendingBound s) : PendingBound (pendDelete s j) := by
  intro i hi
  exact h i (mem_pendDelete.mp hi).1

theorem pendingBound_of_eq_fields {s t : ClientState}
    (hp : t.pendingRequests = s.pendingRequests)
    (hr : t.requestId = s.requestId)
    (h : PendingBound s) : PendingBound t := by
  intro i hi
  rw [hr]
  exact h i (hp ▸ hi)

theorem handleReconnect_fst (s : ClientState) :
    (handleReconnect s).1 =
      if s.reconnectAttempts < maxReconnectAttempts then
        { s with reconnectAttempts := s.reconnectAttempts + 1,
                 reconnectTimeout :=
                   some (min (1000 * 2 ^ (s.reconnectAttempts + 1)) 30000) }
      else s := by
  by_cases h : s.reconnectAttempts < maxReconnectAttempts <;>
    simp [handleReconnect, h]

theorem handleReconnect_requestId (s : ClientState) :
    (handleReconnect s).1.requestId = s.requestId := by
  rw [handleReconnect_fst]
  by_cases h : s.reconnectAttempts < maxReconnectAttempts <;> simp [h]

theorem handleReconnect_pendingRequests (s : ClientState) :
    (handleReconnect s).1.pendingRequests = s.pendingRequests := by
  rw [handleReconnect_fst]
  by_cases h : s.reconnectAttempts < maxReconnectAttempts <;> simp [h]

theorem handleReconnect_subscriptions (s : ClientState) :
    (handleReconnect s).1.subscriptions = s.subscriptions := by
  rw [handleReconnect_fst]
  by_cases h : s.reconnectAttempts < maxReconnectAttempts <;> simp [h]

theorem handleMessage_subscriptions (s : ClientState) (m : Message) :
    (handleMessage s m).1.subscriptions = s.subscriptions := by
  rcases handleMessage_fst s m with h1 | ⟨j, _, h1⟩ <;> rw [h1] <;>
    simp [pendDelete]

theorem handleMessage_requestId (s : ClientState) (m : Message) :
    (handleMessage s m).1.requestId = s.requestId := by
  rcases handleMessage_fst s m with h1 | ⟨j, _, h1⟩ <;> rw [h1] <;>
    simp [pendDelete]

theorem onRequestTimeout_requestId (s : ClientState) (id : Nat) :
    (onRequestTimeout s id).1.requestId = s.requestId := by
  rcases onRequestTimeout_fst s id with h1 | ⟨_, h1⟩ <;> rw [h1] <;>
    simp [pendDelete]

theorem onRequestTimeout_subscriptions (s : ClientState) (id : Nat) :
    (onRequestTimeout s id).1.subscriptions = s.subscriptions := by
  rcases onRequestTimeout_fst s id with h1 | ⟨_, h1⟩ <;> rw [h1] <;>
    simp [pendDelete]

/-! Invariant: `PendingBound` is preserved by every step, and `requestId`
never decreases. -/

theorem pendingBound_step {s : ClientState} (e : Event)
    (h : PendingBound s) : PendingBound (step s e).1 := by
  cases e with
  | send m => exact pendingBound_sendRequest m h
  | recv m =>
      rcases handleMessage_fst s m with h1 | ⟨j, _, h1⟩
      · exact pendingBound_of_eq_fields (congrArg _ h1) (congrArg _ h1) h
      · have h2 : (step s (Event.recv m)).1 = pendDelete s j := h1
        rw [h2]
        exact pendingBound_pendDelete h
  | timeoutFire id =>
      rcases onRequestTimeout_fst s id with h1 | ⟨_, h1⟩
      · exact pendingBound_of_eq_fields (congrArg _ h1) (congrArg _ h1) h
      · have h2 : (step s (Event.timeoutFire id)).1 = pendDelete s id := h1
        rw [h2]
        exact pendingBound_pendDelete h
  | wsOpen => exact fun i hi => h i hi
  | wsClose =>
      exact pendingBound_of_eq_fields (handleReconnect_pendingRequests _)
        (handleReconnect_requestId _) h
  | reconnectFire => exact fun i hi => h i hi
  | subscribeStats cb => exact pendingBound_sendRequest _ h
  | subscribeAlerts cb => exact pendingBound_sendRequest _ h
  | subscribeLogs cb => exact pendingBound_sendRequest _ h
  | unsubStats => exact pendingBound_sendRequest _ h
  | unsubAlerts => exact pendingBound_sendRequest _ h
  | unsubLogs => exact pendingBound_sendRequest _ h
  | disconnectCall => intro i hi; exact absurd hi (List.not_mem_nil i)

theorem requestId_le_step (s : ClientState) (e : Event) :
    s.requestId ≤ (step s e).1.requestId := by
  cases e with
  | send m => exact requestId_le_sendRequest s m
  | recv m => exact Nat.le_of_eq (handleMessage_requestId s m).symm
  | timeoutFire id => exact Nat.le_of_eq (onRequestTimeout_requestId s id).symm
  | wsOpen => exact Nat.le_refl _
  | wsClose =>
      exact Nat.le_of_eq
        (handleReconnect_requestId
          { s with ws := s.ws.map (fun _ => WsReadyState.CLOSED) }).symm
  | reconnectFire => exact Nat.le_refl _
  | subscribeStats cb =>
      exact requestId_le_sendRequest
        { s with subscriptions := msSet s.subscriptions "system_stats" cb }
        "subscribe_system_stats"
  | subscribeAlerts cb =>
      exact requestId_le_sendRequest
        { s with subscriptions := msSet s.subscriptions "alerts" cb }
        "subscribe_alerts"
  | subscribeLogs cb =>
      exact requestId_le_sendRequest
        { s with subscriptions := msSet s.subscriptions "logs" cb }
        "subscribe_logs"
  | unsubStats =>
      exact requestId_le_sendRequest
        { s with subscriptions := msDel s.subscriptions "system_stats" }
        "unsubscribe_system_stats"
  | unsubAlerts =>
      exact requestId_le_sendRequest
        { s with subscriptions := msDel s.subscriptions "alerts" }
        "unsubscribe_alerts"
  | unsubLogs =>
      exact requestId_le_sendRequest
        { s with subscriptions := msDel s.subscriptions "logs" }
        "unsubscribe_logs"
  | disconnectCall => exact Nat.le_refl _

theorem step_pending_mem {s : ClientState} {e : Event} {i : Nat}
    (hi : i ∈ (step s e).1.pendingRequests) :
    i ∈ s.pendingRequests ∨ i = s.requestId + 1 := by
  cases e with
  | send m => exact mem_sendRequest_pending hi
  | recv m =>
      have hi2 : i ∈ (handleMessage s m).1.pendingRequests := hi
      rcases handleMessage_fst s m with h1 | ⟨j, _, h1⟩ <;> rw [h1] at hi2
      · left; exact hi2
      · left; exact (mem_pendDelete.mp hi2).1
  | timeoutFire id =>
      have hi2 : i ∈ (onRequestTimeout s id).1.pendingRequests := hi
      rcases onRequestTimeout_fst s id with h1 | ⟨_, h1⟩ <;> rw [h1] at hi2
      · left; exact hi2
      · left; exact (mem_pendDelete.mp hi2).1
  | wsOpen => left; exact hi
  | wsClose =>
      have hi2 : i ∈ (handleReconnect _).1.pendingRequests := hi
      rw [handleReconnect_pendingRequests] at hi2
      left; exact hi2
  | reconnectFire => left; exact hi
  | subscribeStats cb =>
      rcases mem_sendRequest_pending hi with h1 | h1
      · left; exact h1
      · right; exact h1
  | subscribeAlerts cb =>
      rcases mem_sendRequest_pending hi with h1 | h1
      · left; exact h1
      · right; exact h1
  | subscribeLogs cb =>
      rcases mem_sendRequest_pending hi with h1 | h1
      · left; exact h1
      · right; exact h1
  | unsubStats =>
      rcases mem_sendRequest_pending hi with h1 | h1
      · left; exact h1
      · right; exact h1
  | unsubAlerts =>
      rcases mem_sendRequest_pending hi with h1 | h1
      · left; exact h1
      · right; exact h1
  | unsubLogs =>
      rcases mem_sendRequest_pending hi with h1 | h1
      · left; exact h1
      · right; exact h1
  | disconnectCall => exact absurd hi (List.not_mem_nil i)

/-! Settlement outputs: a step settles the promise of id `i` only if `i`
was pending when the step began. -/

theorem settles_sendRequest {s : ClientState} {m : String} {i : Nat} :
    ∀ o ∈ (sendRequest s m).2, settles i o = false := by
  by_cases h : s.ws = some WsReadyState.OPEN <;>
    simp [sendRequest, h, settles]

theorem mem_respond_snd {s : ClientState} {isErr : Bool} {res : Nat}
    {mo : Option Nat} {o : Output}
    (ho : o ∈ (respond s isErr res mo).2) :
    ∃ j, j ∈ s.pendingRequests ∧ mo = some j ∧
      (o = Output.rejectedError j ∨ o = Output.resolved j res) := by
  cases mo with
  | none => simp [respond] at ho
  | some j =>
      by_cases hc : j ≠ 0 ∧ j ∈ s.pendingRequests
      · rw [respond_hit isErr res hc.1 hc.2] at ho
        refine ⟨j, hc.2, rfl, ?_⟩
        have h2 : o = if isErr then Output.rejectedError j
            else Output.resolved j res := by simpa using ho
        by_cases he : isErr
        · left; rw [h2, if_pos he]
        · right; rw [h2, if_neg he]
      · rw [respond_miss isErr res hc] at ho
        simp at ho

theorem settles_handleMessage {s : ClientState} {m : Message} {i : Nat}
    (hi : i ∉ s.pendingRequests) :
    ∀ o ∈ (handleMessage s m).2, settles i o = false := by
  intro o ho
  have ho2 : o ∈ (respond s m.isError m.result m.id).2 ++
      notify (respond s m.isError m.result m.id).1 m.params m.method := ho
  rcases List.mem_append.mp ho2 with h1 | h1
  · obtain ⟨j, hjm, _, hor⟩ := mem_respond_snd h1
    have hji : j ≠ i := fun h => hi (h ▸ hjm)
    rcases hor with h2 | h2 <;> rw [h2] <;> simp [settles, hji]
  · obtain ⟨cb, h2⟩ := mem_notify h1
    rw [h2]
    rfl

theorem settles_onRequestTimeout {s : ClientState} {id i : Nat}
    (hi : i ∉ s.pendingRequests) :
    ∀ o ∈ (onRequestTimeout s id).2, settles i o = false := by
  intro o ho
  unfold onRequestTimeout at ho
  by_cases hc : id ∈ s.pendingRequests
  · have hne : id ≠ i := fun h => hi (h ▸ hc)
    simp only [hc, if_true] at ho
    have h3 : o = Output.rejectedTimeout id := by simpa using ho
    rw [h3]
    simp [settles, hne]
  · simp [hc] at ho

theorem settles_handleReconnect {s : ClientState} {i : Nat} :
    ∀ o ∈ (handleReconnect s).2, settles i o = false := by
  by_cases h : s.reconnectAttempts < maxReconnectAttempts <;>
    simp [handleReconnect, h, settles]

theorem step_settles_false {s : ClientState} {e : Event} {i : Nat}
    (hi : i ∉ s.pendingRequests) :
    ∀ o ∈ (step s e).2, settles i o = false := by
  cases e with
  | send m => exact settles_sendRequest
  | recv m => exact settles_handleMessage hi
  | timeoutFire id => exact settles_onRequestTimeout hi
  | wsOpen =>
      intro o ho
      have h2 : o ∈ [Output.connectResolved] := ho
      have h3 : o = Output.connectResolved := by simpa using h2
      rw [h3]
      rfl
  | wsClose =>
      exact settles_handleReconnect
        (s := { s with ws := s.ws.map (fun _ => WsReadyState.CLOSED) })
  | reconnectFire => intro o ho; simp [step] at ho
  | subscribeStats cb => exact settles_sendRequest
  | subscribeAlerts cb => exact settles_sendRequest
  | subscribeLogs cb => exact settles_sendRequest
  | unsubStats => exact settles_sendRequest
  | unsubAlerts => exact settles_sendRequest
  | unsubLogs => exact settles_sendRequest
  | disconnectCall => intro o ho; simp [step] at ho

/-! The dead-id invariant: once a request id has been purged while the
counter already passed it, it is never pending again and no later step
settles its promise.  This is exactly why a late frame with a settled id
cannot be misdelivered: the id is never recycled for a newer pending
request. -/

theorem deadId_step {i : Nat} {s : ClientState} (e : Event)
    (h : DeadId i s) : DeadId i (step s e).1 := by
  obtain ⟨hb, hni, hle⟩ := h
  refine ⟨pendingBound_step e hb, ?_,
    le_trans hle (requestId_le_step s e)⟩
  intro hmem
  rcases step_pending_mem hmem with h1 | h1
  · exact hni h1
  · omega

theorem deadId_run {i : Nat} {s : ClientState} (es : List Event)
    (h : DeadId i s) :
    DeadId i (run s es).1 ∧ ∀ o ∈ (run s es).2, settles i o = false := by
  induction es generalizing s with
  | nil => exact ⟨h, by simp [run]⟩
  | cons e es ih =>
      have h1 := deadId_step e h
      have h2 := step_settles_false (e := e) (i := i) h.2.1
      obtain ⟨h3, h4⟩ := ih h1
      refine ⟨h3, ?_⟩
      intro o ho
      have ho2 : o ∈ (step s e).2 ++ (run (step s e).1 es).2 := ho
      rcases List.mem_append.mp ho2 with h5 | h5
      · exact h2 o h5
      · exact h4 o h5

theorem requestId_le_run (s : ClientState) (es : List Event) :
    s.requestId ≤ (run s es).1.requestId := by
  induction es generalizing s with
  | nil => exact Nat.le_refl _
  | cons e es ih =>
      exact le_trans (requestId_le_step s e) (ih (step s e).1)

theorem pendingBound_run {s : ClientState} (es : List Event)
    (h : PendingBound s) : PendingBound (run s es).1 := by
  induction es generalizing s with
  | nil => exact h
  | cons e es ih => exact ih (pendingBound_step e h)

/-! After `maxReconnectAttempts` consecutive failures the reconnect
counter never drops (short of a successful open) and no further reconnect
is ever scheduled. -/

theorem sendRequest_requestId_of_open {s : ClientState} {m : String}
    (h : s.ws = some WsReadyState.OPEN) :
    (sendRequest s m).1.requestId = s.requestId + 1 := by
  rw [sendRequest_of_open h]

theorem handleReconnect_snd (s : ClientState) :
    (handleReconnect s).2 =
      if s.reconnectAttempts < maxReconnectAttempts then
        [Output.scheduleReconnect
          (min (1000 * 2 ^ (s.reconnectAttempts + 1)) 30000)]
      else [Output.logMaxAttempts] := by
  by_cases h : s.reconnectAttempts < maxReconnectAttempts <;>
    simp [handleReconnect, h]

theorem noSched_sendRequest {s : ClientState} {m : String} :
    ∀ d, Output.scheduleReconnect d ∉ (sendRequest s m).2 := by
  intro d
  by_cases h : s.ws = some WsReadyState.OPEN <;> simp [sendRequest, h]

theorem noSched_handleMessage {s : ClientState} {m : Message} :
    ∀ d, Output.scheduleReconnect d ∉ (handleMessage s m).2 := by
  intro d hmem
  have h2 : Output.scheduleReconnect d ∈
      (respond s m.isError m.result m.id).2 ++
        notify (respond s m.isError m.result m.id).1 m.params m.method := hmem
  rcases List.mem_append.mp h2 with h1 | h1
  · obtain ⟨j, _, _, hor⟩ := mem_respond_snd h1
    rcases hor with h3 | h3 <;> exact Output.noConfusion h3
  · obtain ⟨cb, h3⟩ := mem_notify h1
    exact Output.noConfusion h3

theorem noSched_onRequestTimeout {s : ClientState} {id : Nat} :
    ∀ d, Output.scheduleReconnect d ∉ (onRequestTimeout s id).2 := by
  intro d
  by_cases h : id ∈ s.pendingRequests <;> simp [onRequestTimeout, h]

theorem handleMessage_reconnectAttempts (s : ClientState) (m : Message) :
    (handleMessage s m).1.reconnectAttempts = s.reconnectAttempts := by
  rcases handleMessage_fst s m with h1 | ⟨j, _, h1⟩ <;> rw [h1] <;>
    simp [pendDelete]

theorem onRequestTimeout_reconnectAttempts (s : ClientState) (id : Nat) :
    (onRequestTimeout s id).1.reconnectAttempts = s.reconnectAttempts := by
  rcases onRequestTimeout_fst s id with h1 | ⟨_, h1⟩ <;> rw [h1] <;>
    simp [pendDelete]

theorem step_max_attempts {s : ClientState} {e : Event}
    (h5 : maxReconnectAttempts ≤ s.reconnectAttempts)
    (he : e ≠ Event.wsOpen) :
    maxReconnectAttempts ≤ (step s e).1.reconnectAttempts ∧
      ∀ d, Output.scheduleReconnect d ∉ (step s e).2 := by
  cases e with
  | send m =>
      exact ⟨le_trans h5
          (Nat.le_of_eq (sendRequest_reconnectAttempts s m).symm),
        noSched_sendRequest⟩
  | recv m =>
      exact ⟨le_trans h5
          (Nat.le_of_eq (handleMessage_reconnectAttempts s m).symm),
        noSched_handleMessage⟩
  | timeoutFire id =>
      exact ⟨le_trans h5
          (Nat.le_of_eq (onRequestTimeout_reconnectAttempts s id).symm),
        noSched_onRequestTimeout⟩
  | wsOpen => exact absurd rfl he
  | wsClose =>
      have h6 : ¬ s.reconnectAttempts < maxReconnectAttempts :=
        Nat.not_lt.mpr h5
      constructor
      · show maxReconnectAttempts ≤ (handleReconnect _).1.reconnectAttempts
        rw [handleReconnect_fst, if_neg h6]
        exact h5
      · intro d
        show Output.scheduleReconnect d ∉ (handleReconnect _).2
        rw [handleReconnect_snd, if_neg h6]
        simp
  | reconnectFire => exact ⟨h5, by intro d hd; simp [step] at hd⟩
  | subscribeStats cb =>
      exact ⟨le_trans h5 (Nat.le_of_eq (sendRequest_reconnectAttempts
          { s with subscriptions := msSet s.subscriptions "system_stats" cb }
          "subscribe_system_stats").symm),
        noSched_sendRequest⟩
  | subscribeAlerts cb =>
      exact ⟨le_trans h5 (Nat.le_of_eq (sendRequest_reconnectAttempts
          { s with subscriptions := msSet s.subscriptions "alerts" cb }
          "subscribe_alerts").symm),
        noSched_sendRequest⟩
  | subscribeLogs cb =>
      exact ⟨le_trans h5 (Nat.le_of_eq (sendRequest_reconnectAttempts
          { s with subscriptions := msSet s.subscriptions "logs" cb }
          "subscribe_logs").symm),
        noSched_sendRequest⟩
  | unsubStats =>
      exact ⟨le_trans h5 (Nat.le_of_eq (sendRequest_reconnectAttempts
          { s with subscriptions := msDel s.subscriptions "system_stats" }
          "unsubscribe_system_stats").symm),
        noSched_sendRequest⟩
  | unsubAlerts =>
      exact ⟨le_trans h5 (Nat.le_of_eq (sendRequest_reconnectAttempts
          { s with subscriptions := msDel s.subscriptions "alerts" }
          "unsubscribe_alerts").symm),
        noSched_sendRequest⟩
  | unsubLogs =>
      exact ⟨le_trans h5 (Nat.le_of_eq (sendRequest_reconnectAttempts
          { s with subscriptions := msDel s.subscriptions "logs" }
          "unsubscribe_logs").symm),
        noSched_sendRequest⟩
  | disconnectCall => exact ⟨h5, by intro d hd; simp [step] at hd⟩

theorem run_max_attempts {s : ClientState} {es : List Event}
    (h5 : maxReconnectAttempts ≤ s.reconnectAttempts)
    (hno : Event.wsOpen ∉ es) :
    maxReconnectAttempts ≤ (run s es).1.reconnectAttempts ∧
      ∀ d, Output.scheduleReconnect d ∉ (run s es).2 := by
  induction es generalizing s with
  | nil => exact ⟨h5, by simp [run]⟩
  | cons e es ih =>
      have hne : e ≠ Event.wsOpen := fun h =>
        hno (h ▸ List.mem_cons_self e es)
      have hno2 : Event.wsOpen ∉ es := fun h =>
        hno (List.mem_cons_of_mem e h)
      obtain ⟨a1, a2⟩ := step_max_attempts h5 hne
      obtain ⟨b1, b2⟩ := ih a1 hno2
      refine ⟨b1, ?_⟩
      intro d hd
      have hd2 : Output.scheduleReconnect d ∈
          (step s e).2 ++ (run (step s e).1 es).2 := hd
      rcases List.mem_append.mp hd2 with h1 | h1
      · exact a2 d h1
      · exact b2 d h1

/-! Once the `"system_stats"` subscription entry is gone it stays gone
under every event except a fresh `subscribeToSystemStats`. -/

theorem subscribeToSystemStats_subscriptions (s : ClientState) (cb : Nat) :
    (subscribeToSystemStats s cb).1.subscriptions =
      msSet s.subscriptions "system_stats" cb :=
  sendRequest_subscriptions
    { s with subscriptions := msSet s.subscriptions "system_stats" cb }
    "subscribe_system_stats"

theorem unsubscribeFromSystemStats_subscriptions (s : ClientState) :
    (unsubscribeFromSystemStats s).1.subscriptions =
      msDel s.subscriptions "system_stats" :=
  sendRequest_subscriptions
    { s with subscriptions := msDel s.subscriptions "system_stats" }
    "unsubscribe_system_stats"

theorem statsSub_none_step {s : ClientState} {e : Event}
    (h : msGet s.subscriptions "system_stats" = none)
    (he : isSubscribeStats e = false) :
    msGet (step s e).1.subscriptions "system_stats" = none := by
  cases e with
  | send m =>
      have h2 : (step s (Event.send m)).1.subscriptions = s.subscriptions :=
        sendRequest_subscriptions s m
      rw [h2]; exact h
  | recv m =>
      have h2 : (step s (Event.recv m)).1.subscriptions = s.subscriptions :=
        handleMessage_subscriptions s m
      rw [h2]; exact h
  | timeoutFire id =>
      have h2 : (step s (Event.timeoutFire id)).1.subscriptions =
          s.subscriptions := onRequestTimeout_subscriptions s id
      rw [h2]; exact h
  | wsOpen => exact h
  | wsClose =>
      have h2 : (step s Event.wsClose).1.subscriptions = s.subscriptions :=
        handleReconnect_subscriptions
          { s with ws := s.ws.map (fun _ => WsReadyState.CLOSED) }
      rw [h2]; exact h
  | reconnectFire => exact h
  | subscribeStats cb => exact absurd he (by simp [isSubscribeStats])
  | subscribeAlerts cb =>
      have h2 : (step s (Event.subscribeAlerts cb)).1.subscriptions =
          msSet s.subscriptions "alerts" cb :=
        sendRequest_subscriptions
          { s with subscriptions := msSet s.subscriptions "alerts" cb }
          "subscribe_alerts"
      rw [h2, msGet_msSet_ne _ _ _ _ (by decide)]
      exact h
  | subscribeLogs cb =>
      have h2 : (step s (Event.subscribeLogs cb)).1.subscriptions =
          msSet s.subscriptions "logs" cb :=
        sendRequest_subscriptions
          { s with subscriptions := msSet s.subscriptions "logs" cb }
          "subscribe_logs"
      rw [h2, msGet_msSet_ne _ _ _ _ (by decide)]
      exact h
  | unsubStats =>
      have h2 : (step s Event.unsubStats).1.subscriptions =
          msDel s.subscriptions "system_stats" :=
        unsubscribeFromSystemStats_subscriptions s
      rw [h2]
      exact msGet_msDel_self _ _
  | unsubAlerts =>
      have h2 : (step s Event.unsubAlerts).1.subscriptions =
          msDel s.subscriptions "alerts" :=
        sendRequest_subscriptions
          { s with subscriptions := msDel s.subscriptions "alerts" }
          "unsubscribe_alerts"
      rw [h2, msGet_msDel_ne _ _ _ (by decide)]
      exact h
  | unsubLogs =>
      have h2 : (step s Event.unsubLogs).1.subscriptions =
          msDel s.subscriptions "logs" :=
        sendRequest_subscriptions
          { s with subscriptions := msDel s.subscriptions "logs" }
          "unsubscribe_logs"
      rw [h2, msGet_msDel_ne _ _ _ (by decide)]
      exact h
  | disconnectCall => rfl

theorem statsSub_none_run {s : ClientState} {es : List Event}
    (h : msGet s.subscriptions "system_stats" = none)
    (hno : ∀ e ∈ es, isSubscribeStats e = false) :
    msGet (run s es).1.subscriptions "system_stats" = none := by
  induction es generalizing s with
  | nil => exact h
  | cons e es ih =>
      have he : isSubscribeStats e = false := hno e (List.mem_cons_self e es)
      have hno2 : ∀ x ∈ es, isSubscribeStats x = false := fun x hx =>
        hno x (List.mem_cons_of_mem e hx)
      exact ih (statsSub_none_step h he) hno2

/-! Evaluation of `handleMessage` and the timeout on the three settlement
paths of a pending request. -/

theorem handleMessage_mkResponse {s : ClientState} {i : Nat} (res : Nat)
    (h0 : i ≠ 0) (hm : i ∈ s.pendingRequests) :
    handleMessage s (mkResponse i res) =
      (pendDelete s i, [Output.resolved i res]) := by
  unfold handleMessage
  rw [show (mkResponse i res).id = some i from rfl,
      show (mkResponse i res).isError = false from rfl,
      show (mkResponse i res).result = res from rfl,
      show (mkResponse i res).method = none from rfl,
      respond_hit false res h0 hm]
  simp [notify]

theorem handleMessage_mkErrorResponse {s : ClientState} {i : Nat}
    (h0 : i ≠ 0) (hm : i ∈ s.pendingRequests) :
    handleMessage s (mkErrorResponse i) =
      (pendDelete s i, [Output.rejectedError i]) := by
  unfold handleMessage
  rw [show (mkErrorResponse i).id = some i from rfl,
      show (mkErrorResponse i).isError = true from rfl,
      show (mkErrorResponse i).result = 0 from rfl,
      show (mkErrorResponse i).method = none from rfl,
      respond_hit true 0 h0 hm]
  simp [notify]

theorem onRequestTimeout_hit {s : ClientState} {i : Nat}
    (hm : i ∈ s.pendingRequests) :
    onRequestTimeout s i = (pendDelete s i, [Output.rejectedTimeout i]) := by
  unfold onRequestTimeout
  rw [if_pos hm]

theorem deadId_pendDelete_self {s : ClientState} (i : Nat)
    (hb : PendingBound s) (hle : i ≤ s.requestId) :
    DeadId i (pendDelete s i) := by
  refine ⟨pendingBound_pendDelete hb, ?_, hle⟩
  intro hmem
  exact (mem_pendDelete.mp hmem).2 rfl

theorem handleMessage_mkNotification_fst (s : ClientState) (meth : String)
    (p : Nat) :
    (handleMessage s (mkNotification meth p)).1 = s := rfl

theorem handleMessage_mkNotification_snd (s : ClientState) (meth : String)
    (p : Nat) :
    (handleMessage s (mkNotification meth p)).2 =
      notify s p (some meth) := rfl

theorem length_filter_key_msSet (m : List (String × Nat)) (k : String)
    (v : Nat) :
    ((msSet m k v).filter (fun q => q.1 = k)).length = 1 := by
  have h0 : (m.filter (fun p => p.1 ≠ k)).filter (fun q => q.1 = k) = [] := by
    induction m with
    | nil => rfl
    | cons hd tl ih =>
        by_cases h1 : hd.1 = k <;> simp [List.filter_cons, h1, ih]
  rw [msSet, List.filter_cons]
  simp [h0]

/-! Claim theorems. -/

/-- C1: while connected, `sendRequest` registers a pending entry under the
fresh id `requestId + 1` (an id never already pending), writes the frame
and arms the fixed 10-second timeout; a matching-id response then resolves
the promise with the result, a matching-id error frame rejects it, and the
timeout firing while the entry is still pending rejects it — whichever
happens first purges the entry at that moment; and once the entry is
purged, no later event sequence ever settles the promise of that id, nor
does the id ever become pending again — so a late-arriving frame with
that id settles nothing and cannot be misdelivered to another pending
request, the id never being recycled. -/
theorem send_correlation_lifecycle (s : ClientState) (m : String)
    (hwf : PendingBound s) (hopen : s.ws = some WsReadyState.OPEN) :
    (s.requestId + 1 ∉ s.pendingRequests ∧
     s.requestId + 1 ∈ (sendRequest s m).1.pendingRequests ∧
     (sendRequest s m).2 =
       [Output.frameSent (s.requestId + 1) m,
        Output.scheduleTimeout (s.requestId + 1) requestTimeoutMs]) ∧
    (∀ res,
      handleMessage (sendRequest s m).1 (mkResponse (s.requestId + 1) res) =
        (pendDelete (sendRequest s m).1 (s.requestId + 1),
         [Output.resolved (s.requestId + 1) res])) ∧
    (handleMessage (sendRequest s m).1 (mkErrorResponse (s.requestId + 1)) =
       (pendDelete (sendRequest s m).1 (s.requestId + 1),
        [Output.rejectedError (s.requestId + 1)])) ∧
    (onRequestTimeout (sendRequest s m).1 (s.requestId + 1) =
       (pendDelete (sendRequest s m).1 (s.requestId + 1),
        [Output.rejectedTimeout (s.requestId + 1)])) ∧
    (∀ es,
      s.requestId + 1 ∉
        (run (pendDelete (sendRequest s m).1 (s.requestId + 1))
          es).1.pendingRequests ∧
      ∀ o ∈ (run (pendDelete (sendRequest s m).1 (s.requestId + 1)) es).2,
        settles (s.requestId + 1) o = false) := by
  have hfresh : s.requestId + 1 ∉ s.pendingRequests := by
    intro hmem
    have := hwf _ hmem
    omega
  have hmem1 : s.requestId + 1 ∈ (sendRequest s m).1.pendingRequests := by
    rw [sendRequest_of_open hopen]
    exact List.mem_cons_self _ _
  have hid0 : s.requestId + 1 ≠ 0 := Nat.succ_ne_zero _
  have hsnd : (sendRequest s m).2 =
      [Output.frameSent (s.requestId + 1) m,
       Output.scheduleTimeout (s.requestId + 1) requestTimeoutMs] := by
    rw [sendRequest_of_open hopen]
  have hdead : DeadId (s.requestId + 1)
      (pendDelete (sendRequest s m).1 (s.requestId + 1)) := by
    refine deadId_pendDelete_self _ (pendingBound_sendRequest m hwf) ?_
    rw [sendRequest_requestId_of_open hopen]
  refine ⟨⟨hfresh, hmem1, hsnd⟩, ?_, ?_, ?_, ?_⟩
  · intro res
    exact handleMessage_mkResponse res hid0 hmem1
  · exact handleMessage_mkErrorResponse hid0 hmem1
  · exact onRequestTimeout_hit hmem1
  · intro es
    obtain ⟨hd, hs⟩ := deadId_run es hdead
    exact ⟨hd.2.1, hs⟩

/-- Witness for C1: a fresh connected client sending `ping`; the
hypotheses hold and the matching-id response (id 1, result 42) resolves
the promise and purges the entry. -/
theorem send_correlation_lifecycle_witness :
    (PendingBound connState ∧ connState.ws = some WsReadyState.OPEN) ∧
    handleMessage (sendRequest connState "ping").1 (mkResponse 1 42) =
      (pendDelete (sendRequest connState "ping").1 1,
       [Output.resolved 1 42]) :=
  ⟨⟨by decide, rfl⟩,
   (send_correlation_lifecycle connState "ping" (by decide) rfl).2.1 42⟩

/-- C2 counterexample: from a freshly connected client (attempt counter
0), the very first failure schedules the reconnect after 2000 ms, not the
1000 ms the claimed sequence `[1s, 2s, 4s, ...]` begins with — the code
increments the counter before computing `min(1000·2^attempts, 30000)`. -/
theorem first_reconnect_delay_cex :
    (step connState Event.wsClose).2 = [Output.scheduleReconnect 2000] ∧
    Output.scheduleReconnect 1000 ∉ (step connState Event.wsClose).2 := by
  decide

/-- C2 (amended): over consecutive failures the scheduled delays are
`min(1000·2^k, 30000)` for the k-th attempt, i.e. `[2s, 4s, 8s, 16s,
30s]`; after the fifth failure no further attempt is scheduled (the
controller only logs), and a successful open resets the counter to 0. -/
theorem reconnect_backoff_sequence :
    (run connState (failN 7)).2 =
      [Output.scheduleReconnect 2000, Output.scheduleReconnect 4000,
       Output.scheduleReconnect 8000, Output.scheduleReconnect 16000,
       Output.scheduleReconnect 30000, Output.logMaxAttempts,
       Output.logMaxAttempts] ∧
    (∀ s : ClientState, (onOpen s).1.reconnectAttempts = 0) :=
  ⟨by decide, fun _ => rfl⟩

/-- C3 counterexample: with a stats subscription active (callback 7) and
request 3 in flight, an unintended close followed by a successful
reconnect produces exactly the reconnect scheduling and the `connect()`
resolution — no `subscribe_system_stats` frame is replayed (the next
request id would be 4) and request 3 is neither rejected nor resolved: it
is still pending. -/
theorem reconnect_no_replay_cex :
    msGet sC3.subscriptions "system_stats" = some 7 ∧
    Output.connectResolved ∈ (run sC3 esC3).2 ∧
    (run sC3 esC3).2 =
      [Output.scheduleReconnect 2000, Output.connectResolved] ∧
    Output.frameSent 4 "subscribe_system_stats" ∉ (run sC3 esC3).2 ∧
    (run sC3 esC3).1.pendingRequests = [3] := by
  decide

/-- C3 (amended): on a successful reconnect only the attempt counter is
reset; the subscription callbacks stay registered client-side but no
subscribe request is re-sent to the server, and requests pending at
disconnect time stay pending — each is rejected only later, when its own
10-second timeout fires. -/
theorem reconnect_effects :
    (run sC3 esC3).1.reconnectAttempts = 0 ∧
    (run sC3 esC3).1.subscriptions = sC3.subscriptions ∧
    (run sC3 esC3).1.pendingRequests = sC3.pendingRequests ∧
    onRequestTimeout (run sC3 esC3).1 3 =
      (pendDelete (run sC3 esC3).1 3, [Output.rejectedTimeout 3]) := by
  decide

/-- C4: once the attempt counter has reached `maxReconnectAttempts` (5),
a further close only logs the max-attempts error (the fatal connectivity
signal the code emits) and schedules nothing; along any continuation
without a successful open, no reconnect is ever scheduled and the counter
never drops below the maximum — the controller is terminally
disconnected; a successful open resets the counter to 0. -/
theorem reconnect_terminal_after_max_attempts (s : ClientState)
    (es : List Event) (h5 : maxReconnectAttempts ≤ s.reconnectAttempts)
    (hno : Event.wsOpen ∉ es) :
    (onClose s).2 = [Output.logMaxAttempts] ∧
    maxReconnectAttempts ≤ (run s es).1.reconnectAttempts ∧
    (∀ d, Output.scheduleReconnect d ∉ (run s es).2) ∧
    (∀ t : ClientState, (onOpen t).1.reconnectAttempts = 0) := by
  obtain ⟨a1, a2⟩ := run_max_attempts h5 hno
  refine ⟨?_, a1, a2, fun t => rfl⟩
  have h6 : ¬ s.reconnectAttempts < maxReconnectAttempts :=
    Nat.not_lt.mpr h5
  show (handleReconnect _).2 = _
  rw [handleReconnect_snd, if_neg h6]

/-- Witness for C4 at a concrete exhausted state: counter at 5, then a
close and a send. -/
theorem reconnect_terminal_after_max_attempts_witness :
    (maxReconnectAttempts ≤ termState.reconnectAttempts ∧
     Event.wsOpen ∉ [Event.wsClose, Event.send "ping"]) ∧
    ((onClose termState).2 = [Output.logMaxAttempts] ∧
     maxReconnectAttempts ≤
       (run termState [Event.wsClose, Event.send "ping"]).1.reconnectAttempts ∧
     (∀ d, Output.scheduleReconnect d ∉
       (run termState [Event.wsClose, Event.send "ping"]).2) ∧
     (∀ t : ClientState, (onOpen t).1.reconnectAttempts = 0)) :=
  ⟨⟨by decide, by decide⟩,
   reconnect_terminal_after_max_attempts termState
     [Event.wsClose, Event.send "ping"] (by decide) (by decide)⟩

/-- C5: an inbound frame carrying no id leaves the state unchanged; if its
method names an active subscription the stored callback is invoked on the
params of the frame (and nothing else happens), and if no subscription is
active for that method — or the frame has no method — nothing at all
happens. -/
theorem notification_routing (s : ClientState) (m : Message)
    (hid : m.id = none) :
    (handleMessage s m).1 = s ∧
    (∀ meth cb, m.method = some meth → meth ≠ "" →
        msGet s.subscriptions meth = some cb →
        (handleMessage s m).2 = [Output.callbackInvoked cb m.params]) ∧
    (∀ meth, m.method = some meth → msGet s.subscriptions meth = none →
        (handleMessage s m).2 = []) ∧
    (m.method = none → (handleMessage s m).2 = []) := by
  have h1 : (handleMessage s m).1 = s := by
    show (respond s m.isError m.result m.id).1 = s
    rw [hid]
    rfl
  have h2 : (handleMessage s m).2 = notify s m.params m.method := by
    show (respond s m.isError m.result m.id).2 ++
        notify (respond s m.isError m.result m.id).1 m.params m.method =
      notify s m.params m.method
    rw [hid]
    rfl
  refine ⟨h1, ?_, ?_, ?_⟩
  · intro meth cb hme hne hg
    rw [h2, hme, notify_hit m.params hne hg]
  · intro meth hme hg
    rw [h2, hme, notify_miss m.params hg]
  · intro hme
    rw [h2, hme]
    rfl

/-- Witness for C5: the frame `{method:"system_stats", params}` with no id
delivered to a client subscribed with callback token 7. -/
theorem notification_routing_witness :
    ((mkNotification "system_stats" 9).id = none ∧
     msGet sC3.subscriptions "system_stats" = some 7) ∧
    (handleMessage sC3 (mkNotification "system_stats" 9)).2 =
      [Output.callbackInvoked 7 9] :=
  ⟨⟨rfl, by decide⟩,
   (notification_routing sC3 (mkNotification "system_stats" 9) rfl).2.1
     "system_stats" 7 rfl (by decide) (by decide)⟩

/-- C6: subscribing twice to system stats leaves exactly one subscription
entry for `"system_stats"` (the second `Map.set` replaces the first
callback), and a subsequent stats notification invokes exactly one
callback — the latest one — exactly once. -/
theorem subscription_idempotent_delivery (s : ClientState)
    (cb1 cb2 p : Nat) :
    (((subscribeToSystemStats (subscribeToSystemStats s cb1).1
          cb2).1.subscriptions.filter
        (fun q => q.1 = "system_stats")).length = 1) ∧
    (handleMessage
        (subscribeToSystemStats (subscribeToSystemStats s cb1).1 cb2).1
        (mkNotification "system_stats" p)).2 =
      [Output.callbackInvoked cb2 p] := by
  have h1 : (subscribeToSystemStats s cb1).1.subscriptions =
      msSet s.subscriptions "system_stats" cb1 :=
    subscribeToSystemStats_subscriptions s cb1
  have h2 : (subscribeToSystemStats (subscribeToSystemStats s cb1).1
      cb2).1.subscriptions =
      msSet (msSet s.subscriptions "system_stats" cb1) "system_stats" cb2 := by
    rw [subscribeToSystemStats_subscriptions, h1]
  constructor
  · rw [h2]
    exact length_filter_key_msSet _ _ _
  · have hg : msGet (subscribeToSystemStats (subscribeToSystemStats s cb1).1
        cb2).1.subscriptions "system_stats" = some cb2 := by
      rw [h2]
      exact msGet_msSet_self _ _ _
    rw [handleMessage_mkNotification_snd, notify_hit p (by decide) hg]

/-- C7: after `unsubscribeFromSystemStats`, along any continuation that
never subscribes to system stats again, the `"system_stats"` entry stays
absent, and a later stats notification frame invokes no callback at all:
the state is unchanged and the output is empty. -/
theorem unsubscribe_stops_delivery (s : ClientState) (es : List Event)
    (p : Nat) (hno : ∀ e ∈ es, isSubscribeStats e = false) :
    msGet (run (unsubscribeFromSystemStats s).1 es).1.subscriptions
      "system_stats" = none ∧
    handleMessage (run (unsubscribeFromSystemStats s).1 es).1
        (mkNotification "system_stats" p) =
      ((run (unsubscribeFromSystemStats s).1 es).1, []) := by
  have h0 : msGet (unsubscribeFromSystemStats s).1.subscriptions
      "system_stats" = none := by
    rw [unsubscribeFromSystemStats_subscriptions]
    exact msGet_msDel_self _ _
  have h1 := statsSub_none_run h0 hno
  refine ⟨h1, ?_⟩
  have h2 := handleMessage_mkNotification_fst
    (run (unsubscribeFromSystemStats s).1 es).1 "system_stats" p
  have h3 : (handleMessage (run (unsubscribeFromSystemStats s).1 es).1
      (mkNotification "system_stats" p)).2 = [] := by
    rw [handleMessage_mkNotification_snd, notify_miss p h1]
  exact Prod.ext h2 h3

/-- Witness for C7: unsubscribe on the subscribed client `sC3`, then a
stats notification and an alerts unsubscribe; the stats entry is gone. -/
theorem unsubscribe_stops_delivery_witness :
    (∀ e ∈ [Event.recv (mkNotification "system_stats" 9),
        Event.unsubAlerts], isSubscribeStats e = false) ∧
    msGet (run (unsubscribeFromSystemStats sC3).1
        [Event.recv (mkNotification "system_stats" 9),
         Event.unsubAlerts]).1.subscriptions "system_stats" = none :=
  ⟨by decide,
   (unsubscribe_stops_delivery sC3
     [Event.recv (mkNotification "system_stats" 9), Event.unsubAlerts]
     0 (by decide)).1⟩

/-- C8: request id assignment is strictly increasing: a successful send is
assigned `requestId + 1` and carries it in its frame, the counter never
decreases across any later events, so a later successful send carries a
strictly greater id. -/
theorem request_ids_strictly_increasing (s : ClientState) (m1 m2 : String)
    (es : List Event) (h1 : s.ws = some WsReadyState.OPEN)
    (h2 : (run (sendRequest s m1).1 es).1.ws = some WsReadyState.OPEN) :
    Output.frameSent (s.requestId + 1) m1 ∈ (sendRequest s m1).2 ∧
    Output.frameSent ((run (sendRequest s m1).1 es).1.requestId + 1) m2 ∈
      (sendRequest (run (sendRequest s m1).1 es).1 m2).2 ∧
    s.requestId + 1 < (run (sendRequest s m1).1 es).1.requestId + 1 := by
  refine ⟨?_, ?_, ?_⟩
  · rw [sendRequest_of_open h1]
    exact List.mem_cons_self _ _
  · rw [sendRequest_of_open h2]
    exact List.mem_cons_self _ _
  · have h3 := sendRequest_requestId_of_open (m := m1) h1
    have h4 := requestId_le_run (sendRequest s m1).1 es
    omega

/-- Witness for C8: a fresh connected client sends `ping` (id 1), the
response for id 1 arrives, then `get_processes` is sent with id 2 > 1. -/
theorem request_ids_strictly_increasing_witness :
    (connState.ws = some WsReadyState.OPEN ∧
     (run (sendRequest connState "ping").1
        [Event.recv (mkResponse 1 0)]).1.ws = some WsReadyState.OPEN) ∧
    connState.requestId + 1 <
      (run (sendRequest connState "ping").1
        [Event.recv (mkResponse 1 0)]).1.requestId + 1 :=
  ⟨⟨rfl, by decide⟩,
   (request_ids_strictly_increasing connState "ping" "get_processes"
     [Event.recv (mkResponse 1 0)] rfl (by decide)).2.2⟩

/-- C9: a send while `ws` is null or not OPEN only rejects with the
"WebSocket not connected" error: the whole state — pending map,
subscription map, request counter — is returned unchanged and no frame,
timer or other output is produced. -/
theorem send_rejects_when_not_connected (s : ClientState) (m : String)
    (h : s.ws ≠ some WsReadyState.OPEN) :
    sendRequest s m = (s, [Output.rejectedNotConnected]) :=
  sendRequest_of_not_open h

/-- Witness for C9: a never-connected fresh service. -/
theorem send_rejects_when_not_connected_witness :
    initState.ws ≠ some WsReadyState.OPEN ∧
    sendRequest initState "ping" =
      (initState, [Output.rejectedNotConnected]) :=
  ⟨by decide, send_rejects_when_not_connected initState "ping" (by decide)⟩

/-- C10: `disconnect()` empties the pending and subscription maps, clears
the reconnect timer and leaves `isConnected()` false; a request pending at
the moment of the call is never settled afterwards: its own 10-second
timeout now finds the entry gone and does nothing, and along every later
event sequence the id is never pending again and no output ever settles
its promise. -/
theorem disconnect_clears_and_silences (s : ClientState) (id : Nat)
    (es : List Event) (hwf : PendingBound s)
    (hid : id ∈ s.pendingRequests) :
    (disconnect s).pendingRequests = [] ∧
    (disconnect s).subscriptions = [] ∧
    (disconnect s).reconnectTimeout = none ∧
    isConnected (disconnect s) = false ∧
    onRequestTimeout (disconnect s) id = (disconnect s, []) ∧
    id ∉ (run (disconnect s) es).1.pendingRequests ∧
    (∀ o ∈ (run (disconnect s) es).2, settles id o = false) := by
  have hdead : DeadId id (disconnect s) := by
    refine ⟨?_, ?_, ?_⟩
    · intro i hi
      exact absurd hi (List.not_mem_nil i)
    · exact List.not_mem_nil id
    · exact (hwf id hid).2
  obtain ⟨hd, hs⟩ := deadId_run es hdead
  refine ⟨rfl, rfl, rfl, rfl, ?_, hd.2.1, hs⟩
  have hn : id ∉ (disconnect s).pendingRequests := List.not_mem_nil id
  unfold onRequestTimeout
  rw [if_neg hn]

/-- Witness for C10: a client with request 1 in flight is disconnected;
afterwards the timeout for id 1 fires and a late response for id 1
arrives, and id 1 is still not pending. -/
theorem disconnect_clears_and_silences_witness :
    (PendingBound pendingState ∧ 1 ∈ pendingState.pendingRequests) ∧
    1 ∉ (run (disconnect pendingState)
        [Event.timeoutFire 1,
         Event.recv (mkResponse 1 5)]).1.pendingRequests :=
  ⟨⟨by decide, by decide⟩,
   (disconnect_clears_and_silences pendingState 1
     [Event.timeoutFire 1, Event.recv (mkResponse 1 5)]
     (by decide) (by decide)).2.2.2.2.2.1⟩

end MCPWS
